import Mathlib

/-
  Verification of the dgraph GraphQL mutation-resolution pipeline
  (package resolve, mutation resolver) and of the Kafka-based CDC
  replication pipeline (package edgraph, kafka.go), against a shallow
  embedding of the Go source.

  External collaborators (Rewriter, Backend Client, Result Completer,
  Kafka client constructors, serialization) are oracles passed in as
  function-valued fields or parameters; the embedded control flow is a
  direct transcription of the Go functions.
-/

set_option autoImplicit false

namespace Resolve

/-- Kind of a GraphQL mutation field, as returned by schema.Mutation.MutationType.
The Go switch has cases for add, delete and update and a default branch for
anything else, modelled by the unsupported constructor. -/
inductive MutationType
  | add
  | update
  | delete
  | unsupported
deriving DecidableEq

/-- One step of a GraphQL error path: a field name or a list index. -/
inductive PathElem
  | str (s : String)
  | idx (n : Nat)
deriving DecidableEq

/-- A structured GraphQL error (x.GqlError): a message and a path. -/
structure GqlError where
  message : String
  path : List PathElem
deriving DecidableEq

/-- The resolved result of one mutation field: the raw JSON fragment bytes in
data (empty string standing for the empty byte slice) and the error list
(the empty list standing for a nil error). -/
structure Resolved where
  data : String
  err : List GqlError
deriving DecidableEq

/-- Go constant: mutationFailed = false. -/
def mutationFailed : Bool := false

/-- Go constant: mutationSucceeded = true. -/
def mutationSucceeded : Bool := true

/-- Backend-native mutation produced by the rewriter (opaque payload). -/
structure DgMutation where
  val : Nat
deriving DecidableEq

/-- Backend-native query produced by the rewriter (opaque payload). -/
structure DgQuery where
  val : Nat
deriving DecidableEq

/-- Identifiers assigned by a backend Mutate call (opaque payload). -/
structure Assigned where
  val : Nat
deriving DecidableEq

/-- Raw backend query response (opaque payload). -/
structure DgResponse where
  val : Nat
deriving DecidableEq

/-- Modelled from the spec: schema.GQLWrapf from the schema package (not under
src/) wraps a collaborator error with a contextual message, yielding one
GraphQL error carrying no path. -/
def gqlWrapf (e : String) (msg : String) : List GqlError :=
  [{ message := msg ++ ": " ++ e, path := [] }]

/-- Modelled from the spec: schema.GQLWrapLocationf (not under src/) wraps an
error with a message and the source location of the mutation; for the error
list it likewise yields one GraphQL error carrying no path. -/
def gqlWrapLocationf (e : String) (msg : String) : List GqlError :=
  [{ message := msg ++ ": " ++ e, path := [] }]

/-- Modelled from the spec: gqlerror.Errorf (not under src/) builds a single
GraphQL error with no path. -/
def gqlErrorf (msg : String) : List GqlError :=
  [{ message := msg, path := [] }]

/-- The mutationResolver of the Go source, with every external collaborator
(schema.Mutation accessors, dgraph.MutationRewriter, dgraph.QueryRewriter,
dgraph.Client, completeDgraphResult) embedded as oracle fields. The err
field of a Go resolved value is kept as the list schema.AsGQLErrors would
produce from it, with nil represented by the empty list. -/
structure MutationResolver where
  responseName : String
  name : String
  mutationType : MutationType
  rewrite : Except String DgMutation
  mutate : DgMutation → Except String Assigned
  fromMutationResult : Assigned → Except String DgQuery
  query : DgQuery → Except String DgResponse
  rewriteDelete : Except String (DgQuery × DgMutation)
  deleteNodes : DgQuery → DgMutation → Option String
  completeDgraphResult : DgResponse → String × List GqlError

/-- Embedding of mutationResolver.resolveMutation: rewrite, execute the
mutation, build the follow-up query, execute it, complete the result.
Rewrite and Mutate failures are fatal (mutationFailed); failures after the
Mutate call return mutationSucceeded since the write took effect. -/
def resolveMutation (mr : MutationResolver) : Resolved × Bool :=
  match mr.rewrite with
  | .error e =>
      ({ data := "", err := gqlWrapf e "could not rewrite mutation" }, mutationFailed)
  | .ok dgMut =>
    match mr.mutate dgMut with
    | .error e =>
        ({ data := "",
           err := gqlWrapLocationf e ("mutation " ++ mr.name ++ " failed") }, mutationFailed)
    | .ok assigned =>
      match mr.fromMutationResult assigned with
      | .error e =>
          ({ data := "",
             err := gqlWrapf e ("could not rewrite mutation " ++ mr.name) }, mutationSucceeded)
      | .ok dgQuery =>
        match mr.query dgQuery with
        | .error e =>
            ({ data := "",
               err := gqlWrapf e
                 ("mutation " ++ mr.name ++ " created a node but query failed") },
             mutationSucceeded)
        | .ok resp =>
          let dres := mr.completeDgraphResult resp
          ({ data := dres.1, err := dres.2 }, mutationSucceeded)

/-- Embedding of mutationResolver.resolveDeleteMutation: rewrite into a
query and mutation pair, execute DeleteNodes, and on success return the
literal fragment with msg Deleted and a nil error. -/
def resolveDeleteMutation (mr : MutationResolver) : Resolved × Bool :=
  match mr.rewriteDelete with
  | .error e =>
      ({ data := "", err := gqlWrapf e "could not rewrite mutation" }, mutationFailed)
  | .ok qm =>
    match mr.deleteNodes qm.1 qm.2 with
    | some e =>
        ({ data := "", err := gqlWrapf e ("mutation " ++ mr.name ++ " failed") },
         mutationFailed)
    | none =>
        ({ data := "\x7b \"msg\": \"Deleted\" \x7d", err := [] }, mutationSucceeded)

/-- The data-wrapping step at the end of mutationResolver.resolve: write
a quoted response name, a colon, then the data bytes, or the literal null
when the data is empty. -/
def wrapData (responseName : String) (data : String) : String :=
  "\"" ++ responseName ++ "\": " ++ (if data.length > 0 then data else "null")

/-- The error-path step at the end of mutationResolver.resolve: each error
whose path is non-empty gets the response name prepended; errors with an
empty path are kept as they are. -/
def addResponseNameToPaths (responseName : String) (errs : List GqlError) : List GqlError :=
  errs.map fun e =>
    if e.path.length > 0 then { e with path := PathElem.str responseName :: e.path } else e

/-- The post-processing block of mutationResolver.resolve that runs after the
kind dispatch: wrap the data and root the error paths. -/
def postProcess (mr : MutationResolver) (rb : Resolved × Bool) : Resolved × Bool :=
  ({ data := wrapData mr.responseName rb.1.data,
     err := addResponseNameToPaths mr.responseName rb.1.err }, rb.2)

/-- Embedding of mutationResolver.resolve: dispatch on the mutation kind, then
post-process. The Go default branch returns directly from inside the switch,
so the post-processing is not applied to unsupported kinds. -/
def resolve (mr : MutationResolver) : Resolved × Bool :=
  match mr.mutationType with
  | .add => postProcess mr (resolveMutation mr)
  | .delete => postProcess mr (resolveDeleteMutation mr)
  | .update => postProcess mr (resolveMutation mr)
  | .unsupported =>
      ({ data := "",
         err := gqlErrorf "Only add, delete and update mutations are implemented" },
       mutationFailed)

/-- The kind dispatch of resolve without the post-processing, used to speak
about the result of the inner pipeline. -/
def innerResolve (mr : MutationResolver) : Resolved × Bool :=
  match mr.mutationType with
  | .add => resolveMutation mr
  | .delete => resolveDeleteMutation mr
  | .update => resolveMutation mr
  | .unsupported =>
      ({ data := "",
         err := gqlErrorf "Only add, delete and update mutations are implemented" },
       mutationFailed)

/-- Data wrapped exactly once under a response name: there is a fragment such
that the data reads as the quoted name, a colon and the fragment. -/
def IsWrappedOnce (responseName data : String) : Prop :=
  ∃ fragment, data = "\"" ++ responseName ++ "\": " ++ fragment

/-- Sample resolver of an unsupported mutation kind with an otherwise fully
successful pipeline. -/
def mrUnsupported : MutationResolver :=
  { responseName := "theMut",
    name := "theMut",
    mutationType := .unsupported,
    rewrite := .ok ⟨1⟩,
    mutate := fun _ => .ok ⟨2⟩,
    fromMutationResult := fun _ => .ok ⟨3⟩,
    query := fun _ => .ok ⟨4⟩,
    rewriteDelete := .ok (⟨3⟩, ⟨1⟩),
    deleteNodes := fun _ _ => none,
    completeDgraphResult := fun _ => ("", []) }

/-- Sample add-mutation resolver whose whole pipeline succeeds and whose
completion step reports one data-shape error with a non-empty path. -/
def mrAdd : MutationResolver :=
  { responseName := "addPost",
    name := "addPost",
    mutationType := .add,
    rewrite := .ok ⟨1⟩,
    mutate := fun _ => .ok ⟨2⟩,
    fromMutationResult := fun _ => .ok ⟨3⟩,
    query := fun _ => .ok ⟨4⟩,
    rewriteDelete := .ok (⟨3⟩, ⟨1⟩),
    deleteNodes := fun _ _ => none,
    completeDgraphResult := fun _ =>
      ("\x7b \"post\": \"p\" \x7d",
       [{ message := "shape", path := [PathElem.str "post"] },
        { message := "global", path := [] }]) }

/-- Sample add-mutation resolver whose rewrite step fails. -/
def mrAddRewriteFail : MutationResolver :=
  { mrAdd with rewrite := .error "bad input" }

/-- Sample add-mutation resolver whose follow-up query construction fails. -/
def mrAddFollowupFail : MutationResolver :=
  { mrAdd with fromMutationResult := fun _ => .error "no query" }

/-- Sample delete-mutation resolver whose rewrite and DeleteNodes succeed. -/
def mrDelete : MutationResolver :=
  { mrAdd with
      responseName := "deletePost",
      name := "deletePost",
      mutationType := .delete }

end Resolve

namespace Edgraph

/-- One key-value record of a badger pb.KVList (keys and values abstracted
to naturals). -/
structure KV where
  key : Nat
  value : Nat
deriving DecidableEq

/-- Local storage contents: a partial map from keys to values. -/
def Storage : Type := Nat → Option Nat

/-- Loader.Set of a badger bulk loader: record one key-value write. -/
def loaderSet (st : Storage) (kv : KV) : Storage :=
  fun k => if kv.key = k then some kv.value else st k

/-- Feeding a whole batch to a fresh loader: the records are applied in the
order of the batch. -/
def loadBatch (st : Storage) (kvs : List KV) : Storage :=
  kvs.foldl loaderSet st

/-- Last-writer-wins view of one batch: the value of the last record of kvs,
in batch order, whose key is k, if there is one. -/
def lastWrite (kvs : List KV) (k : Nat) : Option Nat :=
  kvs.foldl (fun acc kv => if kv.key = k then some kv.value else acc) none

/-- Observable events of one ConsumeClaim run, in order: a fresh loader is
opened with a parallelism hint, a record is fed to it, the loader is
finalized, a message (named by its position in the claim) is marked
consumed. -/
inductive CEvent
  | newLoader (parallelism : Nat)
  | set (kv : KV)
  | finish
  | mark (idx : Nat)
deriving DecidableEq

/-- Embedding of Consumer.ConsumeClaim over the messages of one claim, each
message given by its value bytes. For each message in order: unmarshal the
value as a KVList; on failure log and return the error, ending the loop; on
success open a fresh loader with parallelism 16, feed every record of the
batch in order, finalize the loader, then mark the message consumed.
Returns the event trace, the final storage and the returned error. -/
def consumeClaim (unmarshal : List Nat → Except String (List KV)) :
    List (List Nat) → Nat → Storage → List CEvent × Storage × Option String
  | [], _, st => ([], st, none)
  | v :: rest, i, st =>
    match unmarshal v with
    | .error e => ([], st, some e)
    | .ok kvs =>
      let out := consumeClaim unmarshal rest (i + 1) (loadBatch st kvs)
      ((CEvent.newLoader 16 :: kvs.map CEvent.set ++ [CEvent.finish, CEvent.mark i]) ++ out.1,
       out.2.1, out.2.2)

/-- The batches of the longest head run of messages that unmarshal
successfully; ConsumeClaim loads exactly these. -/
def okBatches (unmarshal : List Nat → Except String (List KV)) :
    List (List Nat) → List (List KV)
  | [] => []
  | v :: rest =>
    match unmarshal v with
    | .error _ => []
    | .ok kvs => kvs :: okBatches unmarshal rest

/-- The event segment ConsumeClaim emits for one successfully unmarshalled
message: fresh loader with hint 16, the records in batch order, finalize,
then mark. -/
def batchSegment (kvs : List KV) (i : Nat) : List CEvent :=
  CEvent.newLoader 16 :: kvs.map CEvent.set ++ [CEvent.finish, CEvent.mark i]

/-- Concatenation of the per-message segments, numbering messages from i. -/
def segsFrom : List (List KV) → Nat → List CEvent
  | [], _ => []
  | kvs :: rest, i => batchSegment kvs i ++ segsFrom rest (i + 1)

/-- Modelled from the spec: the fixed Kafka topic name shared by producer and
consumer (the kafkaTopic constant is not under src/). -/
def kafkaTopic : String := "dgraph-cdc"

/-- A constructed Kafka client (consumer group or sync producer), opaque. -/
structure Client where
  id : Nat
deriving DecidableEq

/-- The bounded retry loop shared by setupKafkaSource and setupKafkaTarget:
attempt i is the call of the client constructor in iteration i; on success
the loop breaks with the client, on failure it sleeps and retries, keeping
the error of the last attempt. -/
def kafkaRetryAux (new : Nat → Except String Client) :
    Nat → Nat → Except String Client → Except String Client
  | _, 0, last => last
  | i, r + 1, _ =>
    match new i with
    | .ok c => .ok c
    | .error e => kafkaRetryAux new (i + 1) r (.error e)

/-- The Go loop for i := 0; i < 10; i++ around the client constructor. -/
def kafkaRetry (new : Nat → Except String Client) : Except String Client :=
  kafkaRetryAux new 0 10 (.error "no attempt made")

/-- Outcome of setupKafkaSource: skipped when the broker list is empty,
running once the consumer loop is started and the ready gate passed, or a
process abort via panic when the bounded retries are exhausted. -/
inductive SourceOutcome
  | skipped
  | running (c : Client)
  | panicked (e : String)
deriving DecidableEq

/-- Embedding of ServerState.setupKafkaSource: with a non-empty source broker
list, retry the consumer-group constructor up to 10 times; on final failure
panic, on success start the consume loop. -/
def setupKafkaSource (sourceBrokers : String) (new : Nat → Except String Client) :
    SourceOutcome :=
  if sourceBrokers.length > 0 then
    match kafkaRetry new with
    | .ok c => .running c
    | .error e => .panicked e
  else
    .skipped

/-- Outcome of setupKafkaTarget: skipped when the broker list is empty,
producing on success, or replication disabled (log and return) when the
bounded retries are exhausted. -/
inductive TargetOutcome
  | skipped
  | producing (p : Client)
  | replicationDisabled
deriving DecidableEq

/-- Embedding of ServerState.setupKafkaTarget: with a non-empty target broker
list, retry the sync-producer constructor up to 10 times; on final failure
log and return without publishing, on success register the subscription
callback. -/
def setupKafkaTarget (targetBrokers : String) (new : Nat → Except String Client) :
    TargetOutcome :=
  if targetBrokers.length > 0 then
    match kafkaRetry new with
    | .ok p => .producing p
    | .error _ => .replicationDisabled
  else
    .skipped

/-- A message handed to the sync producer: topic and value bytes. -/
structure ProducerMessage where
  topic : String
  value : List Nat
deriving DecidableEq

/-- Observable events of one run of the producer subscription callback: the
glog call on a marshal failure, the SendMessage call, a hypothetical log of
a delivery failure (the callback never emits it), and the verbose log of a
produced list. -/
inductive PEvent
  | logMarshalError (e : String)
  | send (m : ProducerMessage)
  | logSendError (e : String)
  | logProduced (n : Nat)
deriving DecidableEq

/-- Embedding of the subscription callback cb of setupKafkaTarget: marshal
the list; on failure log and return without publishing; on success call
SendMessage once with the fixed topic, assign its error to a variable that
is never read, and log the produced count. -/
def producerCallback (marshal : List KV → Except String (List Nat))
    (deliver : ProducerMessage → Except String Unit)
    (list : List KV) : List PEvent :=
  match marshal list with
  | .error e => [PEvent.logMarshalError e]
  | .ok listBytes =>
      let msg : ProducerMessage := { topic := kafkaTopic, value := listBytes }
      let _sendErr := deliver msg
      [PEvent.send msg, PEvent.logProduced list.length]

/-- A Go channel reduced to the one observable fact the claim needs: whether
it has been closed. -/
structure GoChannel where
  isClosed : Bool
deriving DecidableEq

/-- Go runtime semantics of the close builtin: closing an already-closed
channel panics, modelled as the error case. -/
def closeChannel (ch : GoChannel) : Except String GoChannel :=
  if ch.isClosed then .error "close of closed channel"
  else .ok { isClosed := true }

/-- The Consumer of kafka.go: it owns the ready channel. -/
structure Consumer where
  ready : GoChannel
deriving DecidableEq

/-- Embedding of Consumer.Setup: unconditionally close the ready channel and
return nil; the panic of a close on a closed channel surfaces as the error
case. -/
def consumerSetup (c : Consumer) : Except String Consumer :=
  match closeChannel c.ready with
  | .error e => .error e
  | .ok ch => .ok { ready := ch }

/-- The Consumer value built in setupKafkaSource, with ready a freshly made
(open) channel; it is created once and reused by every Consume call of the
driver loop. -/
def newSourceConsumer : Consumer :=
  { ready := { isClosed := false } }

/-- Sample unmarshal oracle: the value [0] decodes to a one-record batch,
anything else is corrupt. -/
def uW : List Nat → Except String (List KV) :=
  fun v => if v = [0] then .ok [⟨1, 2⟩] else .error "bad payload"

/-- Sample unmarshal oracle for a two-record batch writing the same key
twice, to exercise last-writer-wins. -/
def uW2 : List Nat → Except String (List KV) :=
  fun v => if v = [0] then .ok [⟨1, 10⟩, ⟨1, 20⟩] else .error "bad payload"

/-- Empty local storage. -/
def stEmpty : Storage := fun _ => none

/-- Sample marshal oracle that encodes a batch as its length. -/
def marshalOk : List KV → Except String (List Nat) :=
  fun l => .ok [l.length]

/-- Sample marshal oracle that always fails. -/
def marshalBad : List KV → Except String (List Nat) :=
  fun _ => .error "corrupt batch"

/-- Sample delivery oracle that always fails. -/
def deliverFail : ProducerMessage → Except String Unit :=
  fun _ => .error "delivery failed"

/-- Sample delivery oracle that always succeeds. -/
def deliverOk : ProducerMessage → Except String Unit :=
  fun _ => .ok ()

/-- Sample one-record batch. -/
def batch1 : List KV := [⟨1, 2⟩]

/-- Sample client constructor that fails three times, then succeeds. -/
def newFlaky : Nat → Except String Client :=
  fun i => if i < 3 then .error "transient" else .ok ⟨7⟩

/-- Sample client constructor that always fails. -/
def newDead : Nat → Except String Client :=
  fun _ => .error "broker down"

end Edgraph

namespace Resolve

/-- Helper: string concatenation is associative. -/
theorem strAppendAssoc (a b c : String) : a ++ b ++ c = a ++ (b ++ c) := by
  apply String.ext
  simp [String.data_append]

/-- Helper: membership in the path-rooting step either came from an error
with a non-empty path, now rooted at the response name, or from an error
with an empty path, kept unchanged. -/
theorem mem_addResponseNameToPaths (name : String) (e : GqlError) (errs : List GqlError)
    (hmem : e ∈ addResponseNameToPaths name errs) :
    (e.path ≠ [] → e.path.head? = some (PathElem.str name)) ∧
    (e.path = [] → e ∈ errs) := by
  simp only [addResponseNameToPaths, List.mem_map] at hmem
  obtain ⟨e0, he0, rfl⟩ := hmem
  by_cases hp : e0.path.length > 0
  · rw [if_pos hp]
    refine ⟨fun _ => rfl, fun hnil => ?_⟩
    exact absurd hnil (List.cons_ne_nil _ _)
  · have hnil : e0.path = [] := by
      cases h0 : e0.path with
      | nil => rfl
      | cons a t => rw [h0] at hp; simp at hp
    rw [if_neg hp]
    exact ⟨fun hne => absurd hnil hne, fun _ => he0⟩

/-- C1 counterexample: for an unsupported mutation kind, resolve returns from
inside the kind dispatch, skipping the wrapping step, so the returned data
is the empty byte slice and is not wrapped under the response name. -/
theorem resolve_unsupported_not_wrapped :
    ¬ IsWrappedOnce mrUnsupported.responseName (resolve mrUnsupported).1.data := by
  intro h
  obtain ⟨frag, hfrag⟩ := h
  have hdata : (resolve mrUnsupported).1.data = "" := rfl
  rw [hdata] at hfrag
  have hlen := congrArg String.length hfrag
  simp only [String.length_append] at hlen
  have h0 : ("" : String).length = 0 := rfl
  have h1 : ("\"" : String).length = 1 := rfl
  have h2 : mrUnsupported.responseName.length = 6 := rfl
  have h3 : ("\": " : String).length = 3 := rfl
  rw [h0, h1, h2, h3] at hlen
  omega

/-- C1 (amended): for add, update and delete mutations the data returned by
resolve is wrapped exactly once as the quoted response name, a colon and the
fragment produced by the inner pipeline, with the literal null when that
fragment is empty; an unsupported kind returns early with empty, unwrapped
data. -/
theorem resolve_wraps_exactly_once (mr : MutationResolver)
    (h : mr.mutationType ≠ MutationType.unsupported) :
    (resolve mr).1.data =
      "\"" ++ mr.responseName ++ "\": " ++
        (if (innerResolve mr).1.data.length > 0 then (innerResolve mr).1.data else "null") := by
  cases hm : mr.mutationType
  case unsupported => exact absurd hm h
  all_goals simp [resolve, innerResolve, postProcess, wrapData, hm]

/-- C1 witness: the amended wrapping statement holds at the sample add
resolver. -/
theorem resolve_wraps_exactly_once_witness :
    mrAdd.mutationType ≠ MutationType.unsupported ∧
    (resolve mrAdd).1.data =
      "\"" ++ mrAdd.responseName ++ "\": " ++
        (if (innerResolve mrAdd).1.data.length > 0 then (innerResolve mrAdd).1.data
         else "null") :=
  ⟨by decide, resolve_wraps_exactly_once mrAdd (by decide)⟩

/-- C2: for add and update mutations, when the rewrite step or the backend
Mutate call fails, resolve reports mutationFailed, the inner data is empty,
and the returned data is the response name wrapped around the literal
null. -/
theorem resolve_fatal_gives_null (mr : MutationResolver)
    (hk : mr.mutationType = MutationType.add ∨ mr.mutationType = MutationType.update)
    (hfail : (∃ e, mr.rewrite = .error e) ∨
      (∃ dgMut e, mr.rewrite = .ok dgMut ∧ mr.mutate dgMut = .error e)) :
    (resolve mr).2 = mutationFailed ∧
    (innerResolve mr).1.data = "" ∧
    (resolve mr).1.data = "\"" ++ mr.responseName ++ "\": null" := by
  have hinner : (resolveMutation mr).1.data = "" ∧ (resolveMutation mr).2 = mutationFailed := by
    rcases hfail with ⟨e, he⟩ | ⟨dgMut, e, hok, he⟩
    · simp [resolveMutation, he]
    · simp [resolveMutation, hok, he]
  have hlit : ("\": " : String) ++ "null" = "\": null" := rfl
  rcases hk with hk | hk <;>
    simp [resolve, innerResolve, postProcess, wrapData, hk, hinner.1, hinner.2,
      strAppendAssoc, hlit]

/-- C2 witness: the fatal-failure statement holds at the sample add resolver
whose rewrite fails. -/
theorem resolve_fatal_gives_null_witness :
    (mrAddRewriteFail.mutationType = MutationType.add ∨
      mrAddRewriteFail.mutationType = MutationType.update) ∧
    mrAddRewriteFail.rewrite = Except.error "bad input" ∧
    ((resolve mrAddRewriteFail).2 = mutationFailed ∧
     (innerResolve mrAddRewriteFail).1.data = "" ∧
     (resolve mrAddRewriteFail).1.data =
       "\"" ++ mrAddRewriteFail.responseName ++ "\": null") :=
  ⟨Or.inl rfl, rfl,
   resolve_fatal_gives_null mrAddRewriteFail (Or.inl rfl) (Or.inl ⟨"bad input", rfl⟩)⟩

/-- C3: for add and update mutations, when rewrite and Mutate succeed but the
follow-up query construction or its execution fails, resolve reports
mutationSucceeded with a non-empty error list. -/
theorem resolve_followup_failure_nonfatal (mr : MutationResolver)
    (hk : mr.mutationType = MutationType.add ∨ mr.mutationType = MutationType.update)
    (dgMut : DgMutation) (assigned : Assigned)
    (hrw : mr.rewrite = .ok dgMut) (hmut : mr.mutate dgMut = .ok assigned)
    (hfail : (∃ e, mr.fromMutationResult assigned = .error e) ∨
      (∃ q e, mr.fromMutationResult assigned = .ok q ∧ mr.query q = .error e)) :
    (resolve mr).2 = mutationSucceeded ∧ (resolve mr).1.err ≠ [] := by
  have hinner : (resolveMutation mr).2 = mutationSucceeded ∧
      (resolveMutation mr).1.err ≠ [] := by
    rcases hfail with ⟨e, he⟩ | ⟨q, e, hq, he⟩
    · simp [resolveMutation, hrw, hmut, he, gqlWrapf]
    · simp [resolveMutation, hrw, hmut, hq, he, gqlWrapf]
  rcases hk with hk | hk <;>
    simp [resolve, postProcess, addResponseNameToPaths, hk, hinner.1, hinner.2]

/-- C3 witness: the non-fatal follow-up failure statement holds at the sample
add resolver whose follow-up query construction fails. -/
theorem resolve_followup_failure_nonfatal_witness :
    (mrAddFollowupFail.mutationType = MutationType.add ∨
      mrAddFollowupFail.mutationType = MutationType.update) ∧
    mrAddFollowupFail.rewrite = Except.ok ⟨1⟩ ∧
    mrAddFollowupFail.mutate ⟨1⟩ = Except.ok ⟨2⟩ ∧
    mrAddFollowupFail.fromMutationResult ⟨2⟩ = Except.error "no query" ∧
    ((resolve mrAddFollowupFail).2 = mutationSucceeded ∧
     (resolve mrAddFollowupFail).1.err ≠ []) :=
  ⟨Or.inl rfl, rfl, rfl, rfl,
   resolve_followup_failure_nonfatal mrAddFollowupFail (Or.inl rfl) ⟨1⟩ ⟨2⟩ rfl rfl
     (Or.inl ⟨"no query", rfl⟩)⟩

/-- C4: every error returned by resolve whose path is non-empty has the
response name as first path element, and every error with an empty path is
passed through unchanged from the inner resolution. -/
theorem resolve_error_paths_rooted (mr : MutationResolver) :
    ∀ e ∈ (resolve mr).1.err,
      (e.path ≠ [] → e.path.head? = some (PathElem.str mr.responseName)) ∧
      (e.path = [] → e ∈ (innerResolve mr).1.err) := by
  intro e he
  cases hm : mr.mutationType
  case add =>
    simp only [resolve, hm, postProcess] at he
    have h2 := mem_addResponseNameToPaths mr.responseName e _ he
    simpa [innerResolve, hm] using h2
  case update =>
    simp only [resolve, hm, postProcess] at he
    have h2 := mem_addResponseNameToPaths mr.responseName e _ he
    simpa [innerResolve, hm] using h2
  case delete =>
    simp only [resolve, hm, postProcess] at he
    have h2 := mem_addResponseNameToPaths mr.responseName e _ he
    simpa [innerResolve, hm] using h2
  case unsupported =>
    simp only [resolve, hm, gqlErrorf, List.mem_singleton] at he
    subst he
    refine ⟨fun hne => absurd rfl hne, fun _ => ?_⟩
    simp [innerResolve, hm, gqlErrorf]

/-- C4 witness: the sample add resolver returns a data-shape error whose
path got rooted at the response name. -/
theorem resolve_error_paths_rooted_witness :
    ∃ e ∈ (resolve mrAdd).1.err,
      (e.path ≠ [] → e.path.head? = some (PathElem.str mrAdd.responseName)) ∧
      (e.path = [] → e ∈ (innerResolve mrAdd).1.err) :=
  ⟨⟨"shape", [PathElem.str "addPost", PathElem.str "post"]⟩, by decide,
   resolve_error_paths_rooted mrAdd _ (by decide)⟩

/-- C5: when the rewrite and DeleteNodes calls of a delete mutation succeed,
resolve reports mutationSucceeded, the data is the literal Deleted fragment
wrapped under the response name, the error list is empty, and the result
does not depend on the follow-up query oracles (no follow-up query is
executed). -/
theorem resolve_delete_success (mr : MutationResolver) (q : DgQuery) (dgMut : DgMutation)
    (hk : mr.mutationType = MutationType.delete)
    (hrw : mr.rewriteDelete = .ok (q, dgMut))
    (hdel : mr.deleteNodes q dgMut = none) :
    (resolve mr).2 = mutationSucceeded ∧
    (resolve mr).1.data =
      "\"" ++ mr.responseName ++ "\": " ++ "\x7b \"msg\": \"Deleted\" \x7d" ∧
    (resolve mr).1.err = [] ∧
    (∀ fmr qOracle,
      resolve { mr with fromMutationResult := fmr, query := qOracle } = resolve mr) := by
  have hinner : resolveDeleteMutation mr =
      ({ data := "\x7b \"msg\": \"Deleted\" \x7d", err := [] }, mutationSucceeded) := by
    simp [resolveDeleteMutation, hrw, hdel]
  have hfrag : ("\x7b \"msg\": \"Deleted\" \x7d" : String).length > 0 := by decide
  refine ⟨?_, ?_, ?_, ?_⟩
  · simp [resolve, hk, postProcess, hinner]
  · simp [resolve, hk, postProcess, hinner, wrapData, hfrag]
  · simp [resolve, hk, postProcess, hinner, addResponseNameToPaths]
  · intro fmr qOracle
    simp [resolve, hk, postProcess, resolveDeleteMutation, hrw, hdel]

/-- C5 witness: the delete-success statement holds at the sample delete
resolver. -/
theorem resolve_delete_success_witness :
    mrDelete.mutationType = MutationType.delete ∧
    mrDelete.rewriteDelete = Except.ok (⟨3⟩, ⟨1⟩) ∧
    mrDelete.deleteNodes ⟨3⟩ ⟨1⟩ = none ∧
    ((resolve mrDelete).2 = mutationSucceeded ∧
     (resolve mrDelete).1.data =
       "\"" ++ mrDelete.responseName ++ "\": " ++ "\x7b \"msg\": \"Deleted\" \x7d" ∧
     (resolve mrDelete).1.err = [] ∧
     (∀ fmr qOracle,
       resolve { mrDelete with fromMutationResult := fmr, query := qOracle } =
         resolve mrDelete)) :=
  ⟨rfl, rfl, rfl, resolve_delete_success mrDelete ⟨3⟩ ⟨1⟩ rfl rfl rfl⟩

end Resolve

namespace Edgraph

/-- Helper: the trace of consumeClaim is the concatenation of the per-message
segments of the longest successfully unmarshalled head run of messages. -/
theorem consumeClaim_trace (u : List Nat → Except String (List KV)) :
    ∀ (msgs : List (List Nat)) (i : Nat) (st : Storage),
      (consumeClaim u msgs i st).1 = segsFrom (okBatches u msgs) i := by
  intro msgs
  induction msgs with
  | nil => intro i st; rfl
  | cons v rest ih =>
    intro i st
    simp only [consumeClaim, okBatches]
    cases hv : u v with
    | error e => simp [segsFrom]
    | ok kvs => simp [segsFrom, batchSegment, ih]

/-- Helper: the final storage of consumeClaim is the left fold of loadBatch
over the successfully unmarshalled batches. -/
theorem consumeClaim_storage (u : List Nat → Except String (List KV)) :
    ∀ (msgs : List (List Nat)) (i : Nat) (st : Storage),
      (consumeClaim u msgs i st).2.1 = (okBatches u msgs).foldl loadBatch st := by
  intro msgs
  induction msgs with
  | nil => intro i st; rfl
  | cons v rest ih =>
    intro i st
    simp only [consumeClaim, okBatches]
    cases hv : u v with
    | error e => simp
    | ok kvs => simp [ih]

/-- Helper: a mark event for message j inside a segment concatenation comes
with the complete load segment of the batch at position j - i, and the mark
event sits at the end of that segment. -/
theorem mark_mem_segsFrom (bs : List (List KV)) :
    ∀ (i j : Nat), CEvent.mark j ∈ segsFrom bs i →
      i ≤ j ∧ ∃ kvs pre post,
        bs[j - i]? = some kvs ∧
        segsFrom bs i = pre ++ batchSegment kvs j ++ post := by
  induction bs with
  | nil => intro i j h; simp [segsFrom] at h
  | cons kvs rest ih =>
    intro i j hmem
    rw [segsFrom.eq_def] at hmem
    rw [List.mem_append] at hmem
    rcases hmem with hseg | hrest
    · have hji : j = i := by
        rw [batchSegment] at hseg
        rcases List.mem_append.1 hseg with h1 | h1
        · rcases List.mem_cons.1 h1 with h2 | h2
          · exact CEvent.noConfusion h2
          · obtain ⟨a, -, h3⟩ := List.mem_map.1 h2
            exact CEvent.noConfusion h3
        · rcases List.mem_cons.1 h1 with h2 | h2
          · exact CEvent.noConfusion h2
          · rw [List.mem_singleton] at h2
            exact CEvent.mark.inj h2
      subst hji
      refine ⟨Nat.le_refl j, kvs, [], segsFrom rest (j + 1), ?_, ?_⟩
      · rw [Nat.sub_self]; simp
      · simp [segsFrom]
    · obtain ⟨hle, kvs2, pre, post, hget, heq⟩ := ih (i + 1) j hrest
      refine ⟨by omega, kvs2, batchSegment kvs i ++ pre, post, ?_, ?_⟩
      · rw [show j - i = (j - (i + 1)) + 1 from by omega]
        simpa using hget
      · rw [segsFrom.eq_def]
        simp only []
        rw [heq]
        simp [List.append_assoc]

/-- Helper: a batch at position n of okBatches comes from the message at
position n, whose value unmarshals to exactly that batch. -/
theorem okBatches_get? (u : List Nat → Except String (List KV)) :
    ∀ (msgs : List (List Nat)) (n : Nat) (kvs : List KV),
      (okBatches u msgs)[n]? = some kvs →
      ∃ v, msgs[n]? = some v ∧ u v = .ok kvs := by
  intro msgs
  induction msgs with
  | nil => intro n kvs h; simp [okBatches] at h
  | cons v rest ih =>
    intro n kvs h
    simp only [okBatches] at h
    cases hv : u v with
    | error e => rw [hv] at h; simp at h
    | ok kvs0 =>
      rw [hv] at h
      cases n with
      | zero =>
        simp at h
        subst h
        exact ⟨v, by simp, hv⟩
      | succ m =>
        simp at h
        obtain ⟨v2, hv2, hu⟩ := ih m kvs h
        exact ⟨v2, by simpa using hv2, hu⟩

/-- Helper: every batch of okBatches has its full load segment somewhere in
the segment concatenation. -/
theorem segsFrom_of_mem (bs : List (List KV)) :
    ∀ (i : Nat) (kvs : List KV), kvs ∈ bs →
      ∃ pre post j, segsFrom bs i = pre ++ batchSegment kvs j ++ post := by
  induction bs with
  | nil => intro i kvs h; simp at h
  | cons b rest ih =>
    intro i kvs h
    rcases List.mem_cons.1 h with rfl | hr
    · exact ⟨[], segsFrom rest (i + 1), i, by simp [segsFrom]⟩
    · obtain ⟨pre, post, j, heq⟩ := ih (i + 1) kvs hr
      refine ⟨batchSegment b i ++ pre, post, j, ?_⟩
      rw [segsFrom.eq_def]
      simp only []
      rw [heq]
      simp [List.append_assoc]

/-- Helper: folding the keep-the-latest-write step from any accumulator is
determined by the fold from the empty accumulator. -/
theorem foldl_lww_acc (k : Nat) (kvs : List KV) :
    ∀ (acc : Option Nat),
      List.foldl (fun acc kv => if kv.key = k then some kv.value else acc) acc kvs =
        (List.foldl (fun acc kv => if kv.key = k then some kv.value else acc) none kvs).elim
          acc some := by
  induction kvs with
  | nil => intro acc; rfl
  | cons kv rest ih =>
    intro acc
    rw [List.foldl_cons, List.foldl_cons, ih, ih ((fun acc kv => if kv.key = k then some kv.value else acc) none kv)]
    cases hl : List.foldl (fun acc kv => if kv.key = k then some kv.value else acc) none rest <;>
      by_cases hk : kv.key = k <;> simp [hk]

/-- Helper: reading one key after loading a whole batch gives the value of
the last record of the batch with that key, or the previous storage value
when the batch never writes the key. -/
theorem loadBatch_lastWrite (kvs : List KV) :
    ∀ (st : Storage) (k : Nat),
      loadBatch st kvs k = (lastWrite kvs k).elim (st k) some := by
  induction kvs with
  | nil => intro st k; rfl
  | cons kv rest ih =>
    intro st k
    show loadBatch (loaderSet st kv) rest k = _
    rw [ih]
    have hR : lastWrite (kv :: rest) k =
        (lastWrite rest k).elim (if kv.key = k then some kv.value else none) some := by
      simp only [lastWrite, List.foldl_cons]
      exact foldl_lww_acc k rest _
    rw [hR]
    cases hl : lastWrite rest k <;> by_cases hk : kv.key = k <;>
      simp [hl, hk, loaderSet]

/-- C6: in the per-claim loop, a mark event for message j occurs only when
the value of message j unmarshalled successfully, and then the trace
decomposes around the full load segment of the batch of message j (fresh
loader, every record in order, finalize, then the mark at the segment end);
a message whose value fails to unmarshal is never marked. -/
theorem consumeClaim_mark_only_after_full_load
    (u : List Nat → Except String (List KV)) (msgs : List (List Nat)) (st : Storage) (j : Nat) :
    (CEvent.mark j ∈ (consumeClaim u msgs 0 st).1 →
      ∃ v kvs pre post,
        msgs[j]? = some v ∧ u v = .ok kvs ∧
        (consumeClaim u msgs 0 st).1 = pre ++ batchSegment kvs j ++ post) ∧
    (∀ v e, msgs[j]? = some v → u v = .error e →
      CEvent.mark j ∉ (consumeClaim u msgs 0 st).1) := by
  constructor
  · intro hmem
    rw [consumeClaim_trace] at hmem
    obtain ⟨-, kvs, pre, post, hget, heq⟩ := mark_mem_segsFrom _ 0 j hmem
    rw [Nat.sub_zero] at hget
    obtain ⟨v, hv, hu⟩ := okBatches_get? u msgs j kvs hget
    exact ⟨v, kvs, pre, post, hv, hu, by rw [consumeClaim_trace]; exact heq⟩
  · intro v e hv he hmem
    rw [consumeClaim_trace] at hmem
    obtain ⟨-, kvs, pre, post, hget, -⟩ := mark_mem_segsFrom _ 0 j hmem
    rw [Nat.sub_zero] at hget
    obtain ⟨v2, hv2, hu⟩ := okBatches_get? u msgs j kvs hget
    rw [hv] at hv2
    injection hv2 with hv3
    subst hv3
    rw [he] at hu
    exact Except.noConfusion hu

/-- C6 witness: for one well-formed message, the mark decomposition holds at
the concrete claim run. -/
theorem consumeClaim_mark_only_after_full_load_witness :
    ∃ v kvs pre post,
      ([[0]] : List (List Nat))[0]? = some v ∧ uW v = .ok kvs ∧
      (consumeClaim uW [[0]] 0 stEmpty).1 = pre ++ batchSegment kvs 0 ++ post :=
  (consumeClaim_mark_only_after_full_load uW [[0]] stEmpty 0).1 (by decide)

/-- C8: the final storage of a claim run is the in-order fold of the
delivered batches; every loaded batch appears in the trace as a fresh loader
opened with parallelism hint 16 followed by its records fed one at a time in
batch order; and loading one batch realizes last-writer-wins by batch
order. -/
theorem consumeClaim_order_and_lastwriterwins
    (u : List Nat → Except String (List KV)) (msgs : List (List Nat)) (st : Storage) :
    ((consumeClaim u msgs 0 st).2.1 = (okBatches u msgs).foldl loadBatch st) ∧
    (∀ kvs, kvs ∈ okBatches u msgs → ∃ pre post i,
      (consumeClaim u msgs 0 st).1 =
        pre ++ (CEvent.newLoader 16 :: kvs.map CEvent.set ++
          [CEvent.finish, CEvent.mark i]) ++ post) ∧
    (∀ (st2 : Storage) (kvs : List KV) (k : Nat),
      loadBatch st2 kvs k = (lastWrite kvs k).elim (st2 k) some) := by
  refine ⟨consumeClaim_storage u msgs 0 st, ?_, ?_⟩
  · intro kvs hkvs
    obtain ⟨pre, post, jj, heq⟩ := segsFrom_of_mem (okBatches u msgs) 0 kvs hkvs
    refine ⟨pre, post, jj, ?_⟩
    rw [consumeClaim_trace]
    simpa [batchSegment] using heq
  · intro st2 kvs k
    exact loadBatch_lastWrite kvs st2 k

/-- C8 witness: a concrete batch writing one key twice is loaded in order,
its segment appears in the trace, and the final value is the later write. -/
theorem consumeClaim_order_and_lastwriterwins_witness :
    ([⟨1, 10⟩, ⟨1, 20⟩] : List KV) ∈ okBatches uW2 [[0]] ∧
    (∃ pre post i,
      (consumeClaim uW2 [[0]] 0 stEmpty).1 =
        pre ++ (CEvent.newLoader 16 :: ([⟨1, 10⟩, ⟨1, 20⟩] : List KV).map CEvent.set ++
          [CEvent.finish, CEvent.mark i]) ++ post) ∧
    lastWrite [⟨1, 10⟩, ⟨1, 20⟩] 1 = some 20 :=
  ⟨by decide,
   (consumeClaim_order_and_lastwriterwins uW2 [[0]] stEmpty).2.1 [⟨1, 10⟩, ⟨1, 20⟩] (by decide),
   by decide⟩

end Edgraph

namespace Edgraph

/-- Helper: when every attempt of a retry window fails, the retry loop ends
with the error of some attempt. -/
theorem kafkaRetryAux_all_fail (new : Nat → Except String Client) :
    ∀ (r i : Nat) (e0 : String),
      (∀ j, i ≤ j → j < i + r → ∃ e, new j = .error e) →
      ∃ e, kafkaRetryAux new i r (.error e0) = .error e := by
  intro r
  induction r with
  | zero => intro i e0 _; exact ⟨e0, rfl⟩
  | succ r ih =>
    intro i e0 hfail
    obtain ⟨e, he⟩ := hfail i (Nat.le_refl i) (by omega)
    simp only [kafkaRetryAux, he]
    exact ih (i + 1) e (fun j hj1 hj2 => hfail j (by omega) (by omega))

/-- Helper: when the first successful attempt lies inside the retry window,
the retry loop returns that client. -/
theorem kafkaRetryAux_first_success (new : Nat → Except String Client) (k : Nat) (c : Client) :
    ∀ (r i : Nat) (last : Except String Client),
      i ≤ k → k < i + r →
      (∀ j, i ≤ j → j < k → ∃ e, new j = .error e) →
      new k = .ok c →
      kafkaRetryAux new i r last = .ok c := by
  intro r
  induction r with
  | zero => intro i last h1 h2 _ _; exact absurd h2 (by omega)
  | succ r ih =>
    intro i last h1 h2 hfail hk
    by_cases hik : i = k
    · subst hik
      simp only [kafkaRetryAux, hk]
    · obtain ⟨e, he⟩ := hfail i (Nat.le_refl i) (by omega)
      simp only [kafkaRetryAux, he]
      exact ih (i + 1) (.error e) (by omega) (by omega)
        (fun j hj1 hj2 => hfail j (by omega) hj2) hk

/-- C7: with non-empty broker lists, if the client constructor fails on the
first k attempts (k at most 9) and succeeds on attempt k, both the consumer
setup and the producer setup proceed normally; if all 10 attempts fail, the
producer setup returns with replication disabled while the consumer setup
panics, aborting the process. -/
theorem kafka_bootstrap_asymmetry (brokers : String) (new : Nat → Except String Client)
    (hb : brokers.length > 0) :
    (∀ k c, k ≤ 9 → (∀ j, j < k → ∃ e, new j = .error e) → new k = .ok c →
      setupKafkaSource brokers new = .running c ∧
      setupKafkaTarget brokers new = .producing c) ∧
    ((∀ j, j < 10 → ∃ e, new j = .error e) →
      (∃ e, setupKafkaSource brokers new = .panicked e) ∧
      setupKafkaTarget brokers new = .replicationDisabled) := by
  constructor
  · intro k c hk hfail hok
    have hr : kafkaRetry new = .ok c :=
      kafkaRetryAux_first_success new k c 10 0 (.error "no attempt made")
        (Nat.zero_le k) (by omega) (fun j _ hj2 => hfail j hj2) hok
    constructor
    · simp [setupKafkaSource, hb, hr]
    · simp [setupKafkaTarget, hb, hr]
  · intro hfail
    obtain ⟨e, he⟩ := kafkaRetryAux_all_fail new 10 0 "no attempt made"
      (fun j _ hj2 => hfail j (by omega))
    have hr : kafkaRetry new = .error e := he
    constructor
    · exact ⟨e, by simp [setupKafkaSource, hb, hr]⟩
    · simp [setupKafkaTarget, hb, hr]

/-- C7 witness: a constructor failing three times then succeeding lets both
setups proceed, and a constructor failing every time disables the producer
while the consumer panics. -/
theorem kafka_bootstrap_asymmetry_witness :
    (setupKafkaSource "localhost:9092" newFlaky = .running ⟨7⟩ ∧
     setupKafkaTarget "localhost:9092" newFlaky = .producing ⟨7⟩) ∧
    ((∃ e, setupKafkaSource "localhost:9092" newDead = .panicked e) ∧
     setupKafkaTarget "localhost:9092" newDead = .replicationDisabled) :=
  ⟨(kafka_bootstrap_asymmetry "localhost:9092" newFlaky (by decide)).1 3 ⟨7⟩ (by decide)
      (fun j hj => ⟨"transient", by interval_cases j <;> rfl⟩) rfl,
   (kafka_bootstrap_asymmetry "localhost:9092" newDead (by decide)).2
      (fun j _ => ⟨"broker down", rfl⟩)⟩

/-- C9 counterexample: at a concrete batch whose serialization succeeds and
whose delivery fails, the callback emits the send call and the verbose
produced log, but no event logging the delivery failure: the SendMessage
error is assigned and never read. -/
theorem producer_delivery_failure_not_logged :
    marshalOk batch1 = .ok [1] ∧
    deliverFail { topic := kafkaTopic, value := [1] } = .error "delivery failed" ∧
    producerCallback marshalOk deliverFail batch1 =
      [PEvent.send { topic := kafkaTopic, value := [1] }, PEvent.logProduced 1] ∧
    PEvent.logSendError "delivery failed" ∉ producerCallback marshalOk deliverFail batch1 :=
  ⟨rfl, rfl, rfl, by decide⟩

/-- C9 (amended): on serialization failure the batch is logged and dropped
with nothing published and no retry; on success exactly one message is
published to the fixed outbound topic; and the callback result does not
depend on the delivery outcome at all, so a delivery failure is neither
logged nor retried by this layer. -/
theorem producerCallback_behavior (marshal : List KV → Except String (List Nat))
    (deliver : ProducerMessage → Except String Unit) (list : List KV) :
    (∀ e, marshal list = .error e →
      producerCallback marshal deliver list = [PEvent.logMarshalError e]) ∧
    (∀ bs, marshal list = .ok bs →
      producerCallback marshal deliver list =
        [PEvent.send { topic := kafkaTopic, value := bs }, PEvent.logProduced list.length]) ∧
    (∀ deliver2, producerCallback marshal deliver list =
      producerCallback marshal deliver2 list) := by
  refine ⟨?_, ?_, ?_⟩
  · intro e he
    simp [producerCallback, he]
  · intro bs hbs
    simp [producerCallback, hbs]
  · intro deliver2
    cases hm : marshal list <;> simp [producerCallback, hm]

/-- C9 witness: the amended producer statement holds at a failing marshal
and at a successful marshal with failing delivery. -/
theorem producerCallback_behavior_witness :
    marshalBad batch1 = .error "corrupt batch" ∧
    producerCallback marshalBad deliverOk batch1 = [PEvent.logMarshalError "corrupt batch"] ∧
    marshalOk batch1 = .ok [1] ∧
    producerCallback marshalOk deliverFail batch1 =
      [PEvent.send { topic := kafkaTopic, value := [1] }, PEvent.logProduced batch1.length] :=
  ⟨rfl, (producerCallback_behavior marshalBad deliverOk batch1).1 "corrupt batch" rfl,
   rfl, (producerCallback_behavior marshalOk deliverFail batch1).2.1 [1] rfl⟩

/-- C10: Consumer.Setup closes the ready channel unconditionally, so after
any successful Setup call the ready channel is closed and a second Setup
call on the resulting Consumer closes an already-closed channel, which
panics with the Go runtime close-of-closed-channel error. -/
theorem consumerSetup_second_session_panics (c c2 : Consumer)
    (h : consumerSetup c = .ok c2) :
    consumerSetup c2 = .error "close of closed channel" := by
  by_cases hc : c.ready.isClosed
  · simp [consumerSetup, closeChannel, hc] at h
  · simp [consumerSetup, closeChannel, hc] at h
    rw [← h]
    rfl

/-- C10 witness: the Consumer created by setupKafkaSource starts with an
open ready channel; the first Setup succeeds and closes it, and the second
Setup panics. -/
theorem consumerSetup_second_session_panics_witness :
    consumerSetup newSourceConsumer = .ok { ready := { isClosed := true } } ∧
    consumerSetup { ready := { isClosed := true } } = .error "close of closed channel" :=
  ⟨rfl, consumerSetup_second_session_panics newSourceConsumer _ rfl⟩

end Edgraph
